import Mathlib

set_option linter.unusedVariables false

/-!
Verification of the inter-stage orchestration core of the Document-Based-RAG
repository: the typed message bus (`backend/mcp/message_bus.py`), the message
envelope (`backend/mcp/message_types.py`), the worker agents
(`backend/agents/*.py`) and the direct FastAPI pipeline (`backend/main.py`).

Python code is shallowly embedded: dictionaries with a fixed consulted key set
become structures with `Option` fields, `dict` insertion order becomes ordered
association lists, raised exceptions become `Except`, and external effects
(filesystem, parser libraries, the generative model, the vector index) become
oracle parameters supplied as input data.  Float arithmetic on the confidence
heuristic is modelled exactly over `ℚ`.
-/

namespace RAGCore

/-- `MessageType` enum from `backend/mcp/message_types.py` (lines 7-22). -/
inductive MessageType
  | INGESTION_REQUEST
  | INGESTION_RESPONSE
  | RETRIEVAL_REQUEST
  | RETRIEVAL_RESPONSE
  | LLM_REQUEST
  | LLM_RESPONSE
  | ERROR
  | STATUS
  deriving DecidableEq

/-- The `.value` string of each enum member, as in the Python source. -/
def MessageType.value : MessageType → String
  | .INGESTION_REQUEST => "INGESTION_REQUEST"
  | .INGESTION_RESPONSE => "INGESTION_RESPONSE"
  | .RETRIEVAL_REQUEST => "RETRIEVAL_REQUEST"
  | .RETRIEVAL_RESPONSE => "RETRIEVAL_RESPONSE"
  | .LLM_REQUEST => "LLM_REQUEST"
  | .LLM_RESPONSE => "LLM_RESPONSE"
  | .ERROR => "ERROR"
  | .STATUS => "STATUS"

/-- One conversation turn: the `{'user': ..., 'assistant': ...}` dict appended
by `CoordinatorAgent.answer_question` (coordinator_agent.py lines 139-142) and
by `ask_question` (main.py lines 214-217). -/
structure Turn where
  user : String
  assistant : String
  deriving DecidableEq

/-- Python's `l[-n:]`: the suffix of the `n` most recent elements. -/
def lastN (n : Nat) (l : List α) : List α :=
  l.drop (l.length - n)

/-- Success-path history update of `CoordinatorAgent.answer_question`
(coordinator_agent.py lines 136-146) and of `ask_question`
(main.py lines 211-221): append the new turn, then keep only the last 10. -/
def appendTurn (history : List Turn) (t : Turn) : List Turn :=
  let h := history ++ [t]
  if h.length > 10 then lastN 10 h else h

/-- Body of the loop `for turn in conversation_history[-3:]` in
`LLMResponseAgent.create_prompt` (llm_response_agent.py lines 34-36) and
`create_prompt` (main.py lines 257-259): two lines per turn. -/
def turnsText : List Turn → String
  | [] => ""
  | t :: ts =>
      "User: " ++ t.user ++ "\n" ++ "Assistant: " ++ t.assistant ++ "\n"
        ++ turnsText ts

/-- `history_text` built by both `create_prompt` implementations: empty when
the history is empty, otherwise a header plus the last 3 turns. -/
def historyText (conversation_history : List Turn) : String :=
  if conversation_history.isEmpty then ""
  else "\n\nPrevious Conversation:\n" ++ turnsText (lastN 3 conversation_history)

/-- Fixed part of the prompt template before the context
(llm_response_agent.py line 38; note the trailing blank after the first
sentence, present in the agent version). -/
def promptHead : String :=
  "You are a helpful AI assistant that answers questions based on provided document context. \n\nCONTEXT FROM DOCUMENTS:\n"

/-- Fixed part of the prompt template after the question
(llm_response_agent.py lines 47-56 and main.py lines 270-279). -/
def promptTail : String :=
  "\n\nPlease provide a comprehensive answer based on the context provided. If the context doesn\x27t contain enough information to fully answer the question, clearly state what information is missing. Always cite which parts of the context you\x27re using to support your answer.\n\nRules:\n1. Base your answer primarily on the provided context\n2. Be specific and detailed in your response\n3. If you mention specific data or facts, indicate which document/source it came from\n4. If the context is insufficient, clearly state what additional information would be needed\n5. Maintain a helpful and professional tone\n\nAnswer:"

/-- `LLMResponseAgent.create_prompt` (llm_response_agent.py lines 27-58):
the f-string assembled from the context, the history text and the query. -/
def create_prompt (query : String) (context : String)
    (conversation_history : List Turn) : String :=
  promptHead ++ context ++ "\n\n" ++ historyText conversation_history
    ++ "\n\nCURRENT QUESTION: " ++ query ++ promptTail

/-- `create_prompt` in main.py (lines 252-281): identical to the agent version
except that the first template line has no trailing blank. -/
def create_promptMain (query : String) (context : String)
    (history : List Turn) : String :=
  "You are a helpful AI assistant that answers questions based on provided document context.\n\nCONTEXT FROM DOCUMENTS:\n"
    ++ context ++ "\n\n" ++ historyText history
    ++ "\n\nCURRENT QUESTION: " ++ query ++ promptTail

/-- Confidence heuristic `min(0.9, len(context) / 2000)` of
`LLMResponseAgent.handle_llm_request` (llm_response_agent.py line 105) and
`ask_question` (main.py line 208), modelled exactly over `ℚ`. -/
def confidence (context : String) : ℚ :=
  min (9 / 10) ((context.length : ℚ) / 2000)

/-- Canned answer returned by `ask_question` when the similarity search
returns no results (main.py line 178). -/
def insufficientAnswer : String :=
  "I don\x27t have enough information to answer that question. Please upload relevant documents first."

/-- Split a character list at every occurrence of `c`, keeping empty pieces,
as Python's `str.split` does. -/
def splitChar : List Char → Char → List (List Char)
  | [], _ => [[]]
  | x :: xs, c =>
      let rest := splitChar xs c
      if x = c then [] :: rest
      else
        match rest with
        | [] => [[x]]
        | r :: rs => (x :: r) :: rs

/-- The part of `path` after its last `/`: this is what both
`file_path.split(chr(47))[-1] if chr(47) in file_path else file_path`
(llm_response_agent.py line 69) and `os.path.basename(file_path)`
(main.py line 201) compute on the forward-slash paths this backend builds. -/
def basename (path : String) : String :=
  if path.data.contains (Char.ofNat 47) then
    String.mk ((splitChar path.data (Char.ofNat 47)).getLastD [])
  else path

/-- ASCII `str.lower()` on the declared file type (ingestion_agent.py
line 45); all parser-table keys are ASCII. -/
def lowerString (s : String) : String :=
  String.mk (s.data.map Char.toLower)

/-- The metadata keys of a retrieved chunk that the source-label code
consults: `file_path`, `file_type` (with default `Unknown` via `dict.get`)
and the optional `chunk_index` added by `ChromaVectorStore.add_documents`
(chroma_store.py lines 61-65). -/
structure ChunkMeta where
  file_path : Option String
  file_type : Option String
  chunk_index : Option Nat
  deriving DecidableEq

/-- A retrieved chunk: `content` plus `metadata`
(retrieval_agent.py lines 73-77). -/
structure Chunk where
  content : String
  metadata : ChunkMeta
  deriving DecidableEq

/-- Label built for one chunk by `LLMResponseAgent.extract_sources`
(llm_response_agent.py lines 63-73): `filename (type)`, with
` - Section chunk_index+1` appended when the metadata has a `chunk_index`. -/
def sourceLabel (metadata : ChunkMeta) : String :=
  let file_path := metadata.file_path.getD "Unknown"
  let file_type := metadata.file_type.getD "Unknown"
  let filename := basename file_path
  let source := filename ++ " (" ++ file_type ++ ")"
  match metadata.chunk_index with
  | some i => source ++ " - Section " ++ toString (i + 1)
  | none => source

/-- Label built for one result by the inline loop of `ask_question`
(main.py lines 198-203): `filename (type)` with no section suffix. -/
def plainLabel (metadata : ChunkMeta) : String :=
  basename (metadata.file_path.getD "Unknown") ++ " ("
    ++ metadata.file_type.getD "Unknown" ++ ")"

/-- `LLMResponseAgent.extract_sources` (llm_response_agent.py lines 60-78):
first-occurrence deduplication of the chunk labels.  The `context` argument
is unused, exactly as in the source. -/
def extract_sources (context : String) (retrieved_chunks : List Chunk) :
    List String :=
  retrieved_chunks.foldl
    (fun sources chunk =>
      let source := sourceLabel chunk.metadata
      if source ∈ sources then sources else sources ++ [source]) []

/-- The inline source-extraction loop of `ask_question`
(main.py lines 197-205). -/
def extractSourcesMain (results : List Chunk) : List String :=
  results.foldl
    (fun sources result =>
      let source := plainLabel result.metadata
      if source ∈ sources then sources else sources ++ [source]) []

/-- Modelled from the spec: "a deduplicated list of human-readable source
labels derived from retrieved-chunk metadata (`filename (type)`, each label
appearing once even if multiple chunks share it)".  Comparison definition
for the refinement claim about source labels: labels in retrieval order,
first occurrence kept. -/
def extractSourcesSpec (retrieved_chunks : List Chunk) : List String :=
  retrieved_chunks.foldl
    (fun sources chunk =>
      let label := plainLabel chunk.metadata
      if label ∈ sources then sources else sources ++ [label]) []

deriving instance DecidableEq for Except

/-- One item of an ingestion batch: the pair produced by
`zip(request_data.file_paths, request_data.file_types)`
(ingestion_agent.py line 40), together with the two external outcomes the
loop observes: whether `os.path.exists(file_path)` holds, and the result of
`parser.parse(file_path)` (extracted text content, or the raised error).
Every parser in `backend/parsers/` returns `metadata.file_path` equal to the
path it was given, so a successful parse yields a document recording
`path`. -/
structure FileItem where
  path : String
  declaredType : String
  onDisk : Bool
  parseResult : Except String String
  deriving DecidableEq

/-- A parsed document as consumed by the response construction: its content
and its `metadata.file_path`. -/
structure ParsedDoc where
  content : String
  file_path : String
  deriving DecidableEq

/-- Keys of the parser table `self.parsers` (ingestion_agent.py
lines 17-25). -/
def supportedTypes : List String :=
  ["pdf", "docx", "pptx", "csv", "txt", "md", "markdown"]

/-- The per-item loop of `IngestionAgent.handle_ingestion_request`
(ingestion_agent.py lines 40-55): skip missing files, skip types with no
parser, skip items whose parse raises; collect the parsed documents. -/
def processedDocs : List FileItem → List ParsedDoc
  | [] => []
  | item :: rest =>
      if item.onDisk = false then processedDocs rest
      else if supportedTypes.contains (lowerString item.declaredType) then
        match item.parseResult with
        | Except.ok content =>
            { content := content, file_path := item.path } :: processedDocs rest
        | Except.error _ => processedDocs rest
      else processedDocs rest

/-- An item survives the loop iff it is on disk, its lowercased declared type
has a parser, and its parse succeeds. -/
def itemParses (item : FileItem) : Bool :=
  item.onDisk && supportedTypes.contains (lowerString item.declaredType)
    && item.parseResult.isOk

/-- The `IngestionResponse` payload (message_types.py lines 44-48) as built
by the happy path of `handle_ingestion_request` (ingestion_agent.py
lines 57-72), including the extra `processed_documents` entry. -/
structure IngestionResponsePayload where
  success : Bool
  processed_files : List String
  chunks_created : Nat
  error_message : Option String
  processed_documents : List ParsedDoc
  deriving DecidableEq

/-- `IngestionAgent.handle_ingestion_request` (ingestion_agent.py
lines 34-72), non-exception path: success iff at least one document parsed;
`error_message` is never set on this path; per-item failures are only
logged. -/
def handle_ingestion_request (items : List FileItem) :
    IngestionResponsePayload :=
  let docs := processedDocs items
  { success := decide (0 < docs.length)
    processed_files := docs.map (fun d => d.file_path)
    chunks_created := 0
    error_message := none
    processed_documents := docs }

/-- The `MCPMessage` envelope (message_types.py lines 24-38), generic in the
payload type; `timestamp` is carried but never consulted by the bus. -/
structure MCPMessage (π : Type) where
  message_id : String
  trace_id : String
  sender : String
  receiver : String
  type : MessageType
  timestamp : Nat
  payload : π
  deriving DecidableEq

/-- An async callback: returns the optional response message, or the raised
exception (which `publish` catches and logs). -/
def Handler (π : Type) : Type :=
  MCPMessage π → Except Unit (Option (MCPMessage π))

/-- One entry of the `self.subscribers` dict (message_bus.py line 11).  The
Python key is the string `agent_name + chr(58) + comma-joined type values`
(line 17), decoded on delivery by `key.split(chr(58), 1)` and
`msg_types.split(chr(44))` (lines 30-32); since agent names contain no colon
and `MessageType` values contain neither colon nor comma, that round trip is
the identity, and the key is modelled as the pair
`(agent, list of type-value strings)`. -/
structure SubEntry (π : Type) where
  agent : String
  typeVals : List String
  callbacks : List (Handler π)

/-- Insertion-ordered dict update used by `subscribe` (message_bus.py
lines 18-20): append to an existing key's callback list, else add a new key
at the end. -/
def addCallback : List (SubEntry π) → String → List String → Handler π →
    List (SubEntry π)
  | [], agent, typeVals, cb => [⟨agent, typeVals, [cb]⟩]
  | e :: rest, agent, typeVals, cb =>
      if e.agent = agent ∧ e.typeVals = typeVals then
        ⟨e.agent, e.typeVals, e.callbacks ++ [cb]⟩ :: rest
      else e :: addCallback rest agent typeVals cb

/-- The bus state (message_bus.py lines 10-13): subscriber dict, message
history list, and the key set of the `pending_responses` dict (the future
values carry no state the claims consult). -/
structure MessageBus (π : Type) where
  subscribers : List (SubEntry π)
  message_history : List (MCPMessage π)
  pending_responses : List String

/-- `MessageBus.subscribe` (message_bus.py lines 15-21). -/
def subscribe (bus : MessageBus π) (agent_name : String)
    (message_types : List MessageType) (callback : Handler π) :
    MessageBus π :=
  { bus with
      subscribers :=
        addCallback bus.subscribers agent_name
          (message_types.map MessageType.value) callback }

/-- Inner loop of `publish` (message_bus.py lines 34-40): run the callbacks
in order, return the first non-null response; a raised exception is caught
and the loop continues. -/
def runCallbacks : List (Handler π) → MCPMessage π → Option (MCPMessage π)
  | [], _ => none
  | cb :: rest, msg =>
      match cb msg with
      | Except.error _ => runCallbacks rest msg
      | Except.ok none => runCallbacks rest msg
      | Except.ok (some response) => some response

/-- The matching condition of `publish` (message_bus.py lines 31-32):
`agent_name == message.receiver and message.type.value in msg_types`. -/
def entryMatches (msg : MCPMessage π) (e : SubEntry π) : Bool :=
  e.agent = msg.receiver && e.typeVals.contains msg.type.value

/-- Outer loop of `publish` (message_bus.py lines 29-40): iterate the
subscriber dict in insertion order; `return response` exits both loops. -/
def publishLoop : List (SubEntry π) → MCPMessage π → Option (MCPMessage π)
  | [], _ => none
  | e :: rest, msg =>
      if entryMatches msg e then
        match runCallbacks e.callbacks msg with
        | some response => some response
        | none => publishLoop rest msg
      else publishLoop rest msg

/-- `MessageBus.publish` (message_bus.py lines 23-42): append the message to
the history, then deliver it; returns the first non-null handler response
together with the updated bus. -/
def publish (bus : MessageBus π) (message : MCPMessage π) :
    Option (MCPMessage π) × MessageBus π :=
  let bus1 := { bus with message_history := bus.message_history ++ [message] }
  (publishLoop bus1.subscribers message, bus1)

/-- Outcome of the `await asyncio.wait_for(future, timeout)` branch of
`request_response`: either some later publish resolves the pending future
with a correlated response, or the timeout fires. -/
inductive AsyncOutcome (π : Type)
  | resolved (response : MCPMessage π)
  | timedOut

/-- Result of `request_response`: a response message, or the
`asyncio.TimeoutError` it re-raises. -/
inductive RRResult (π : Type)
  | response (m : MCPMessage π)
  | timeoutError

/-- `MessageBus.request_response` (message_bus.py lines 44-61): store a
pending future under `message.message_id`, publish, return the immediate
reply if any, otherwise wait for the future (resolution or timeout supplied
as the oracle `async_outcome`); the `finally` block deletes the pending
entry on every path. -/
def request_response (bus : MessageBus π) (message : MCPMessage π)
    (async_outcome : AsyncOutcome π) : RRResult π × MessageBus π :=
  let pending1 :=
    if message.message_id ∈ bus.pending_responses then bus.pending_responses
    else bus.pending_responses ++ [message.message_id]
  let bus1 := { bus with pending_responses := pending1 }
  let (resp, bus2) := publish bus1 message
  let result : RRResult π :=
    match resp with
    | some r => RRResult.response r
    | none =>
        match async_outcome with
        | AsyncOutcome.resolved r => RRResult.response r
        | AsyncOutcome.timedOut => RRResult.timeoutError
  let pendingFinal :=
    if message.message_id ∈ bus2.pending_responses then
      bus2.pending_responses.filter (fun k => k ≠ message.message_id)
    else bus2.pending_responses
  (result, { bus2 with pending_responses := pendingFinal })

/-- `MessageBus.get_message_history` (message_bus.py lines 63-67): filter by
trace id when one is given (a non-empty string is truthy), else return the
last 50 messages. -/
def get_message_history (bus : MessageBus π) (trace_id : Option String) :
    List (MCPMessage π) :=
  match trace_id with
  | some tid =>
      if tid = "" then lastN 50 bus.message_history
      else bus.message_history.filter (fun m => m.trace_id = tid)
  | none => lastN 50 bus.message_history

/-- A call to `subscribe` as made by the agents: the registration event. -/
structure SubEvent (π : Type) where
  agent : String
  types : List MessageType
  cb : Handler π

/-- The subscriber table resulting from a sequence of `subscribe` calls on a
fresh bus. -/
def buildSubscribers (events : List (SubEvent π)) : List (SubEntry π) :=
  events.foldl
    (fun subs e => addCallback subs e.agent (e.types.map MessageType.value) e.cb)
    []

/-- Modelled from the spec: handlers matching a message, in global
registration order — the delivery order the spec's words claim (`delivery
order among them is registration order`).  Comparison definition for the
delivery-order claim. -/
def registrationCallbacks (events : List (SubEvent π)) (msg : MCPMessage π) :
    List (Handler π) :=
  (events.filter
      (fun e => e.agent = msg.receiver && (e.types.map MessageType.value).contains msg.type.value)).map
    (fun e => e.cb)

/-- The callbacks `publishLoop` runs, flattened: matching dict entries in key
insertion order, each entry's callbacks in registration order. -/
def matchingCallbacks (subs : List (SubEntry π)) (msg : MCPMessage π) :
    List (Handler π) :=
  ((subs.filter (entryMatches msg)).map (fun e => e.callbacks)).flatten

/-- The payload dict fields consulted or constructed along the question
workflow (`RetrievalRequest`, `RetrievalResponse` with `retrieved_chunks`,
`LLMRequest` with the extra `retrieved_chunks` entry, `LLMResponse`, and
`error` payloads). -/
structure QPayload where
  query : Option String
  top_k : Option Nat
  retrieved_chunks : List Chunk
  similarity_scores : List ℚ
  context : Option String
  conversation_history : List Turn
  answer : Option String
  sources : List String
  confidence : Option ℚ
  error : Option String
  deriving DecidableEq

/-- A payload dict with no keys set. -/
def emptyQPayload : QPayload :=
  ⟨none, none, [], [], none, [], none, [], none, none⟩

/-- Outcome of one `request_response` call as seen by the coordinator: the
reply message, or the raised `asyncio.TimeoutError`. -/
inductive BusReply (π : Type)
  | msg (m : MCPMessage π)
  | timeout

/-- The result dict of `CoordinatorAgent.answer_question`
(coordinator_agent.py lines 148-154 and its error returns). -/
structure AnswerResult where
  success : Bool
  answer : Option String
  sources : List String
  confidence : Option ℚ
  error : Option String
  retrieved_chunks : List Chunk
  deriving DecidableEq

/-- The error-shaped result `{'success': False, 'error': e}`. -/
def errorAnswer (e : String) : AnswerResult :=
  ⟨false, none, [], none, some e, []⟩

/-- `answer_question`'s observable behaviour: its result, the bus requests
it issued via `request_response` (type and payload, in order), and the
session history after the call. -/
structure QAOutcome where
  result : AnswerResult
  issued : List (MessageType × QPayload)
  newHistory : List Turn

/-- `CoordinatorAgent.answer_question` (coordinator_agent.py lines 79-161).
The two `request_response` outcomes are oracle inputs; `message_id`,
`trace_id` and sender and receiver names of the issued messages are omitted
from the trace (fresh uuids, constant strings).  A timeout raised by
`request_response` is caught by the enclosing `except` and becomes an error
result; `llm_response.payload['answer']` on a payload without that key
raises a `KeyError`, likewise caught. -/
def answer_question (retrieval_reply : BusReply QPayload)
    (llm_reply : BusReply QPayload) (history : List Turn) (query : String) :
    QAOutcome :=
  let retrievalPayload :=
    { emptyQPayload with query := some query, top_k := some 5 }
  let issued0 : List (MessageType × QPayload) :=
    [(MessageType.RETRIEVAL_REQUEST, retrievalPayload)]
  match retrieval_reply with
  | BusReply.timeout => ⟨errorAnswer "TimeoutError", issued0, history⟩
  | BusReply.msg retrieval_response =>
      if retrieval_response.type = MessageType.ERROR then
        ⟨errorAnswer (retrieval_response.payload.error.getD "Retrieval failed"),
          issued0, history⟩
      else
        let retrieved_chunks := retrieval_response.payload.retrieved_chunks
        let context :=
          String.intercalate "\n\n" (retrieved_chunks.map (fun c => c.content))
        let llmPayload :=
          { emptyQPayload with
              query := some query
              context := some context
              conversation_history := history
              retrieved_chunks := retrieved_chunks }
        let issued1 := issued0 ++ [(MessageType.LLM_REQUEST, llmPayload)]
        match llm_reply with
        | BusReply.timeout => ⟨errorAnswer "TimeoutError", issued1, history⟩
        | BusReply.msg llm_response =>
            if llm_response.type = MessageType.ERROR then
              ⟨errorAnswer
                  (llm_response.payload.error.getD "LLM generation failed"),
                issued1, history⟩
            else
              match llm_response.payload.answer with
              | none => ⟨errorAnswer "KeyError: answer", issued1, history⟩
              | some answer =>
                  ⟨⟨true, some answer, llm_response.payload.sources,
                      some (llm_response.payload.confidence.getD 0), none,
                      retrieved_chunks⟩,
                    issued1, appendTurn history ⟨query, answer⟩⟩

/-- Python's `str.strip()`: whitespace removed from both ends (used by
main.py line 169 to reject blank questions). -/
def stripString (s : String) : String :=
  String.mk
    (((s.data.dropWhile Char.isWhitespace).reverse.dropWhile
        Char.isWhitespace).reverse)

/-- The response model of `POST /ask` (main.py lines 47-52). -/
structure QuestionResponse where
  success : Bool
  answer : Option String
  sources : List String
  confidence : Option ℚ
  error : Option String
  deriving DecidableEq

/-- `ask_question` in main.py (lines 163-235).  The vector-store results and
the generative model are oracle inputs; the returned `Bool` records whether
`gemini_model.generate_content` was called.  A blank question raises an
`HTTPException` caught by the enclosing `except`; an empty result list
short-circuits with the canned answer before any generation. -/
def ask_question (results : List Chunk) (gen : String → Except String String)
    (history : List Turn) (question : String) :
    QuestionResponse × Bool × List Turn :=
  if stripString question = "" then
    (⟨false, none, [], none, some "Question cannot be empty"⟩, false, history)
  else if results.isEmpty then
    (⟨true, some insufficientAnswer, [], some 0, none⟩, false, history)
  else
    let context := String.intercalate "\n\n" (results.map (fun r => r.content))
    let prompt := create_promptMain question context history
    match gen prompt with
    | Except.error e => (⟨false, none, [], none, some e⟩, true, history)
    | Except.ok answer =>
        let sources := extractSourcesMain results
        let newHistory := appendTurn history ⟨question, answer⟩
        (⟨true, some answer, sources, some (confidence context), none⟩, true,
          newHistory)

/-- Content of a successful parse (total projection used to state which
document a parsed item yields). -/
def okContent : Except String String → String
  | Except.ok c => c
  | Except.error _ => ""

/-- First-occurrence deduplication: the accumulator pattern
`if x not in acc: acc.append(x)` shared by `extract_sources`
(llm_response_agent.py lines 75-76) and the `ask_question` source loop
(main.py lines 204-205). -/
def firstDedup (acc : List String) : List String → List String
  | [] => acc
  | l :: ls => if l ∈ acc then firstDedup acc ls else firstDedup (acc ++ [l]) ls

/-! ### Concrete instances for counterexamples and witnesses -/

/-- A message over `Nat` payloads, for bus scenarios. -/
def mkMsg (i : Nat) : MCPMessage Nat :=
  ⟨"", "t", "S", "A", MessageType.RETRIEVAL_REQUEST, 0, i⟩

/-- Reply message of the second registered handler. -/
def busM2 : MCPMessage Nat := mkMsg 2

/-- Reply message of the third registered handler. -/
def busM3 : MCPMessage Nat := mkMsg 3

/-- First handler: returns no reply. -/
def busH1 : Handler Nat := fun _ => Except.ok none

/-- Second handler: replies with `busM2`. -/
def busH2 : Handler Nat := fun _ => Except.ok (some busM2)

/-- Third handler: replies with `busM3`. -/
def busH3 : Handler Nat := fun _ => Except.ok (some busM3)

/-- Three interleaved subscriptions: the first and third share one dict key
(same agent, same kinds list), the second has its own key. -/
def busEvents : List (SubEvent Nat) :=
  [⟨"A", [MessageType.RETRIEVAL_REQUEST], busH1⟩,
    ⟨"A", [MessageType.RETRIEVAL_REQUEST, MessageType.LLM_REQUEST], busH2⟩,
    ⟨"A", [MessageType.RETRIEVAL_REQUEST], busH3⟩]

/-- The delivered message for the bus scenarios. -/
def busM0 : MCPMessage Nat := mkMsg 0

/-- A bus with no subscribers, empty history and no pending requests. -/
def emptyBus : MessageBus Nat := ⟨[], [], []⟩

/-- The bus state after publishing 51 messages on a fresh bus. -/
def bus51 : MessageBus Nat :=
  ((List.range 51).map mkMsg).foldl (fun b m => (publish b m).2) emptyBus

/-- Three-item ingestion batch: two parsable `txt` files and one item with
unsupported declared type `xyz`. -/
def batch3 : List FileItem :=
  [⟨"up/a.txt", "txt", true, Except.ok "text a"⟩,
    ⟨"up/b.txt", "txt", true, Except.ok "text b"⟩,
    ⟨"up/c.xyz", "xyz", true, Except.ok "text c"⟩]

/-- The same batch without the unsupported item. -/
def batch2 : List FileItem :=
  [⟨"up/a.txt", "txt", true, Except.ok "text a"⟩,
    ⟨"up/b.txt", "txt", true, Except.ok "text b"⟩]

/-- A batch whose every item fails: one missing file, one unsupported type,
one parser error. -/
def batchAllFail : List FileItem :=
  [⟨"up/gone.txt", "txt", false, Except.error "not reached"⟩,
    ⟨"up/c.xyz", "xyz", true, Except.ok "text c"⟩,
    ⟨"up/bad.pdf", "pdf", true, Except.error "Failed to parse PDF"⟩]

/-- Two retrieved chunks of the same file and type, distinct `chunk_index`
(as `ChromaVectorStore.add_documents` always sets one). -/
def chunkA0 : Chunk := ⟨"alpha", ⟨some "up/a.txt", some "txt", some 0⟩⟩

/-- Second chunk of the same file. -/
def chunkA1 : Chunk := ⟨"beta", ⟨some "up/a.txt", some "txt", some 1⟩⟩

/-- A chunk whose metadata carries no `chunk_index`. -/
def chunkPlain : Chunk := ⟨"gamma", ⟨some "up/a.txt", some "txt", none⟩⟩

/-- A `RETRIEVAL_RESPONSE` message with an empty `retrieved_chunks` list: the
reply the retrieval agent produces over an empty index. -/
def emptyRetrievalResp : MCPMessage QPayload :=
  ⟨"rid", "tid", "RetrievalAgent", "CoordinatorAgent",
    MessageType.RETRIEVAL_RESPONSE, 0,
    { emptyQPayload with query := some "q" }⟩

/-- An `LLM_RESPONSE` message carrying a model-generated answer. -/
def llmResp : MCPMessage QPayload :=
  ⟨"lid", "tid", "LLMResponseAgent", "CoordinatorAgent",
    MessageType.LLM_RESPONSE, 0,
    { emptyQPayload with
        answer := some "model answer"
        sources := []
        confidence := some 0 }⟩

/-- A 2000-character context, at the confidence cap. -/
def bigContext : String := String.mk (List.replicate 2000 (Char.ofNat 97))

/-! ### Helper lemmas -/

theorem lastN_length (n : Nat) (l : List α) :
    (lastN n l).length = min l.length n := by
  simp [lastN]
  omega

theorem lastN_of_le (n : Nat) (l : List α) (h : l.length ≤ n) :
    lastN n l = l := by
  simp [lastN, Nat.sub_eq_zero_of_le h]

theorem lastN_length_le (n : Nat) (l : List α) : (lastN n l).length ≤ n := by
  simp [lastN_length]

theorem lastN_idem (n : Nat) (l : List α) : lastN n (lastN n l) = lastN n l :=
  lastN_of_le n _ (lastN_length_le n l)

theorem lastN_suffix (n : Nat) (l : List α) : List.IsSuffix (lastN n l) l :=
  List.drop_suffix _ _

theorem lastN_eq_nil_iff (n : Nat) (hn : 0 < n) (l : List α) :
    lastN n l = [] ↔ l = [] := by
  constructor
  · intro h
    have hlen := lastN_length n l
    rw [h] at hlen
    simp only [List.length_nil] at hlen
    have hz : l.length = 0 := by omega
    exact List.length_eq_zero.mp hz
  · intro h; simp [h, lastN]

theorem lastN_append (n : Nat) (a b : List α) :
    lastN n (lastN n a ++ b) = lastN n (a ++ b) := by
  by_cases h : a.length ≤ n
  · rw [lastN_of_le n a h]
  · have hn : n < a.length := Nat.lt_of_not_le h
    simp only [lastN, List.length_append, List.length_drop,
      List.drop_append_eq_append_drop, List.drop_drop]
    congr 2 <;> omega

theorem appendTurn_eq_lastN (history : List Turn) (t : Turn)
    (h : history.length ≤ 10) :
    appendTurn history t = lastN 10 (history ++ [t]) := by
  simp only [appendTurn]
  split
  · rfl
  · next hc => exact (lastN_of_le 10 _ (by omega)).symm

theorem foldl_appendTurn (ts : List Turn) :
    ts.foldl appendTurn [] = lastN 10 ts := by
  induction ts using List.reverseRecOn with
  | nil => rfl
  | append_singleton ts t ih =>
      rw [List.foldl_append, List.foldl_cons, List.foldl_nil, ih,
        appendTurn_eq_lastN _ _ (lastN_length_le 10 ts), lastN_append]

theorem historyText_lastN (h : List Turn) :
    historyText h = historyText (lastN 3 h) := by
  by_cases he : h = []
  · simp [he, historyText, lastN]
  · have h1 : ¬ h.isEmpty = true := by simp [List.isEmpty_iff, he]
    have h2 : ¬ (lastN 3 h).isEmpty = true := by
      simp only [List.isEmpty_iff]
      exact fun hc => he ((lastN_eq_nil_iff 3 (by omega) h).mp hc)
    simp only [historyText, if_neg h1, if_neg h2, lastN_idem]

theorem firstDedup_nodup (ls : List String) :
    ∀ acc : List String, acc.Nodup → (firstDedup acc ls).Nodup := by
  induction ls with
  | nil => intro acc h; exact h
  | cons l ls ih =>
      intro acc h
      simp only [firstDedup]
      by_cases hl : l ∈ acc
      · rw [if_pos hl]; exact ih acc h
      · rw [if_neg hl]
        refine ih _ ?_
        simp [List.nodup_append, h, hl]

theorem firstDedup_mem (ls : List String) :
    ∀ (acc : List String) (x : String),
      x ∈ firstDedup acc ls ↔ x ∈ acc ∨ x ∈ ls := by
  induction ls with
  | nil => intro acc x; simp [firstDedup]
  | cons l ls ih =>
      intro acc x
      simp only [firstDedup]
      by_cases hl : l ∈ acc
      · rw [if_pos hl, ih]
        constructor
        · rintro (hx | hx)
          · exact Or.inl hx
          · exact Or.inr (List.mem_cons_of_mem l hx)
        · rintro (hx | hx)
          · exact Or.inl hx
          · rcases List.mem_cons.mp hx with rfl | hx
            · exact Or.inl hl
            · exact Or.inr hx
      · rw [if_neg hl, ih]
        simp only [List.mem_append, List.mem_singleton, List.mem_cons]
        tauto

theorem foldl_dedup_eq_firstDedup (ls : List String) :
    ∀ acc : List String,
      ls.foldl (fun s l => if l ∈ s then s else s ++ [l]) acc =
        firstDedup acc ls := by
  induction ls with
  | nil => intro acc; rfl
  | cons l ls ih =>
      intro acc
      simp only [List.foldl_cons, firstDedup]
      by_cases hl : l ∈ acc
      · rw [if_pos hl, if_pos hl, ih]
      · rw [if_neg hl, if_neg hl, ih]

theorem extract_sources_eq (ctx : String) (chunks : List Chunk) :
    extract_sources ctx chunks =
      firstDedup [] (chunks.map (fun c => sourceLabel c.metadata)) := by
  rw [extract_sources, ← foldl_dedup_eq_firstDedup, List.foldl_map]

theorem extractSourcesSpec_eq (chunks : List Chunk) :
    extractSourcesSpec chunks =
      firstDedup [] (chunks.map (fun c => plainLabel c.metadata)) := by
  rw [extractSourcesSpec, ← foldl_dedup_eq_firstDedup, List.foldl_map]

theorem extractSourcesMain_eq_spec (results : List Chunk) :
    extractSourcesMain results = extractSourcesSpec results := rfl

theorem sourceLabel_of_none (m : ChunkMeta) (hc : m.chunk_index = none) :
    sourceLabel m = plainLabel m := by
  simp [sourceLabel, plainLabel, hc]

theorem runCallbacks_append (a b : List (Handler π)) (msg : MCPMessage π) :
    runCallbacks (a ++ b) msg =
      match runCallbacks a msg with
      | some r => some r
      | none => runCallbacks b msg := by
  induction a with
  | nil => rfl
  | cons cb rest ih =>
      simp only [List.cons_append, runCallbacks]
      cases cb msg with
      | error e => exact ih
      | ok o =>
          cases o with
          | none => exact ih
          | some r => rfl

theorem publishLoop_eq_matching (subs : List (SubEntry π))
    (msg : MCPMessage π) :
    publishLoop subs msg = runCallbacks (matchingCallbacks subs msg) msg := by
  induction subs with
  | nil => rfl
  | cons e rest ih =>
      simp only [publishLoop, matchingCallbacks, List.filter_cons]
      by_cases hm : entryMatches msg e
      · rw [if_pos hm, if_pos hm]
        simp only [List.map_cons, List.flatten_cons]
        rw [runCallbacks_append]
        cases hr : runCallbacks e.callbacks msg with
        | some r => rfl
        | none => rw [ih]; rfl
      · rw [if_neg hm, if_neg hm, ih]
        rfl

theorem runCallbacks_none (cbs : List (Handler π)) (msg : MCPMessage π)
    (h : ∀ cb ∈ cbs, cb msg = Except.error () ∨ cb msg = Except.ok none) :
    runCallbacks cbs msg = none := by
  induction cbs with
  | nil => rfl
  | cons cb rest ih =>
      simp only [runCallbacks]
      rcases h cb (List.mem_cons_self cb rest) with hc | hc
      · rw [hc]
        exact ih (fun c hcm => h c (List.mem_cons_of_mem cb hcm))
      · rw [hc]
        exact ih (fun c hcm => h c (List.mem_cons_of_mem cb hcm))

theorem processedDocs_eq (items : List FileItem) :
    processedDocs items =
      (items.filter itemParses).map
        (fun i => ParsedDoc.mk (okContent i.parseResult) i.path) := by
  induction items with
  | nil => rfl
  | cons item rest ih =>
      simp only [processedDocs, List.filter_cons]
      cases hd : item.onDisk with
      | false =>
          have hp : itemParses item = false := by
            simp only [itemParses, hd, Bool.false_and]
          simp [hd, hp, ih]
      | true =>
          cases hs : supportedTypes.contains (lowerString item.declaredType) with
          | false =>
              have hp : itemParses item = false := by
                simp only [itemParses, hd, hs, Bool.true_and, Bool.false_and]
              simp [hd, hs, hp, ih]
          | true =>
              cases hpr : item.parseResult with
              | ok content =>
                  have hp : itemParses item = true := by
                    simp only [itemParses, hd, hs, hpr, Bool.true_and]
                    rfl
                  simp [hd, hs, hpr, hp, ih, okContent]
              | error e =>
                  have hp : itemParses item = false := by
                    simp only [itemParses, hd, hs, hpr, Bool.true_and]
                    rfl
                  simp [hd, hs, hpr, hp, ih]

/-! ### Claim theorems -/

/-- C5: on every terminating outcome of `request_response` — immediate reply
from `publish`, later correlated resolution, or timeout — the pending entry
keyed by `message.message_id` is absent from the pending-request table after
the call; pending entries are never leaked. -/
theorem C5_pending_removed (π : Type) (bus : MessageBus π)
    (message : MCPMessage π) (async_outcome : AsyncOutcome π) :
    message.message_id ∉
      (request_response bus message async_outcome).2.pending_responses := by
  by_cases h : message.message_id ∈ bus.pending_responses <;>
    simp [request_response, publish, h, List.mem_filter]

/-- C4 (amended): every published message is appended to the stored history,
which is unbounded; `get_message_history` returns the newest 50 stored
messages when no (non-empty) trace id is given, and all messages of the
trace when one is. -/
theorem C4_amended (π : Type) (bus : MessageBus π) (message : MCPMessage π)
    (tid : String) :
    (publish bus message).2.message_history = bus.message_history ++ [message]
    ∧ get_message_history bus none = lastN 50 bus.message_history
    ∧ (get_message_history bus none).length ≤ 50
    ∧ (tid ≠ "" →
        get_message_history bus (some tid) =
          bus.message_history.filter (fun m => m.trace_id = tid)) := by
  refine ⟨rfl, rfl, lastN_length_le 50 bus.message_history, ?_⟩
  intro h
  simp [get_message_history, h]

/-- C4 witness. -/
theorem C4_amended_witness :
    get_message_history bus51 (some "t") =
      bus51.message_history.filter (fun m => m.trace_id = "t") :=
  (C4_amended Nat bus51 (mkMsg 0) "t").2.2.2 (by decide)

/-- C4 counterexample: after 51 publishes on a fresh bus the stored history
holds 51 messages — more than the 50 the claim allows to be retained — while
the getter returns only 50. -/
theorem C4_counterexample :
    bus51.message_history.length = 51
    ∧ ¬ bus51.message_history.length ≤ 50
    ∧ (get_message_history bus51 none).length = 50 :=
  ⟨rfl, by decide, rfl⟩

/-- C6: after N successful `handle_question` calls on a fresh session the
stored turn count is min(N, 10) and the retained turns are exactly the 10
most recent, oldest evicted first. -/
theorem C6_fifo_retention (ts : List Turn) :
    (ts.foldl appendTurn []).length = min ts.length 10
    ∧ ts.foldl appendTurn [] = lastN 10 ts := by
  refine ⟨?_, foldl_appendTurn ts⟩
  rw [foldl_appendTurn, lastN_length]

/-- C7: the generation prompt depends only on the 3 most recent turns of the
conversation history, which are a suffix (oldest-first, order preserved) of
the retained history of at most 3 turns; this holds for both `create_prompt`
implementations. -/
theorem C7_grounding_window (query context : String) (h : List Turn) :
    create_prompt query context h = create_prompt query context (lastN 3 h)
    ∧ create_promptMain query context h =
        create_promptMain query context (lastN 3 h)
    ∧ (lastN 3 h).length ≤ 3
    ∧ List.IsSuffix (lastN 3 h) h := by
  refine ⟨?_, ?_, lastN_length_le 3 h, lastN_suffix 3 h⟩
  · simp only [create_prompt]
    rw [historyText_lastN]
  · simp only [create_promptMain]
    rw [historyText_lastN]

/-- C8: the confidence score is min(0.9, context_length / 2000), monotone in
context length, equal to 0.9 for contexts of at least 2000 characters, and
never above 0.9. -/
theorem C8_confidence (c1 c2 : String) :
    confidence c1 = min (9 / 10 : ℚ) ((c1.length : ℚ) / 2000)
    ∧ (c1.length ≤ c2.length → confidence c1 ≤ confidence c2)
    ∧ (2000 ≤ c1.length → confidence c1 = 9 / 10)
    ∧ confidence c1 ≤ 9 / 10 := by
  refine ⟨rfl, ?_, ?_, min_le_left _ _⟩
  · intro h
    have hc : (c1.length : ℚ) ≤ (c2.length : ℚ) := by exact_mod_cast h
    apply min_le_min (le_refl _)
    gcongr
  · intro h
    have h2 : (2000 : ℚ) ≤ (c1.length : ℚ) := by exact_mod_cast h
    rw [confidence, min_eq_left]
    rw [le_div_iff₀ (by norm_num)]
    linarith

/-- C8 witness: the cap is reached at a 2000-character context, and
confidence is monotone on a concrete pair. -/
theorem C8_confidence_witness :
    confidence bigContext = 9 / 10 ∧ confidence "ab" ≤ confidence "abcd" := by
  have hlen : bigContext.length = 2000 := by
    show (List.replicate 2000 (Char.ofNat 97)).length = 2000
    exact List.length_replicate 2000 _
  exact ⟨(C8_confidence bigContext "").2.2.1 (by omega),
    (C8_confidence "ab" "abcd").2.1 (by decide)⟩

/-- C9 counterexample: three subscriptions where the first and third share a
dict key; for a message matching all three, `publish` runs the third
handler's reply (key grouping) instead of the second registered responder,
so handlers are not invoked in global registration order. -/
theorem C9_counterexample :
    publishLoop (buildSubscribers busEvents) busM0 = some busM3
    ∧ runCallbacks (registrationCallbacks busEvents busM0) busM0 = some busM2
    ∧ busM3 ≠ busM2 :=
  ⟨rfl, rfl, by decide⟩

/-- C9 (amended): `publish` runs the matching handlers grouped by
subscription key — groups in key-first-registration order, handlers within a
group in registration order; the first non-null reply wins and later
handlers never affect the result; if no handler replies, `publish` returns
nothing. -/
theorem C9_amended (π : Type) :
    (∀ (subs : List (SubEntry π)) (msg : MCPMessage π),
        publishLoop subs msg = runCallbacks (matchingCallbacks subs msg) msg)
    ∧ (∀ (pre rest rest' : List (Handler π)) (h : Handler π)
          (msg r : MCPMessage π),
        runCallbacks pre msg = none → h msg = Except.ok (some r) →
          runCallbacks (pre ++ h :: rest) msg = some r
          ∧ runCallbacks (pre ++ h :: rest') msg = some r)
    ∧ (∀ (subs : List (SubEntry π)) (msg : MCPMessage π),
        (∀ cb ∈ matchingCallbacks subs msg,
          cb msg = Except.error () ∨ cb msg = Except.ok none) →
          publishLoop subs msg = none) := by
  refine ⟨publishLoop_eq_matching, ?_, ?_⟩
  · intro pre rest rest' h msg r hpre hh
    constructor <;>
      · rw [runCallbacks_append, hpre]
        simp only [runCallbacks, hh]
  · intro subs msg hall
    rw [publishLoop_eq_matching]
    exact runCallbacks_none _ _ hall

/-- C9 witness: the amended delivery rules exercised on concrete handlers. -/
theorem C9_amended_witness :
    runCallbacks ([busH1] ++ busH2 :: [busH3]) busM0 = some busM2
    ∧ runCallbacks ([busH1] ++ busH2 :: []) busM0 = some busM2
    ∧ publishLoop
        (buildSubscribers [⟨"A", [MessageType.RETRIEVAL_REQUEST], busH1⟩])
        busM0 = none := by
  have h2 :=
    (C9_amended Nat).2.1 [busH1] [busH3] [] busH2 busM0 busM2 rfl rfl
  have hmc :
      matchingCallbacks
        (buildSubscribers [⟨"A", [MessageType.RETRIEVAL_REQUEST], busH1⟩])
        busM0 = [busH1] := rfl
  have h3 :=
    (C9_amended Nat).2.2
      (buildSubscribers [⟨"A", [MessageType.RETRIEVAL_REQUEST], busH1⟩]) busM0
      (by
        rw [hmc]
        intro cb hcb
        rcases List.mem_singleton.mp hcb with rfl
        right
        rfl)
  exact ⟨h2.1, h2.2, h3⟩

/-- C3 counterexample: two chunks of the same file and type but different
`chunk_index` yield two distinct section-suffixed labels, not one label of
the form `filename (type)` as the claim states. -/
theorem C3_counterexample :
    extract_sources "" [chunkA0, chunkA1] =
      ["a.txt (txt) - Section 1", "a.txt (txt) - Section 2"]
    ∧ extractSourcesSpec [chunkA0, chunkA1] = ["a.txt (txt)"]
    ∧ extract_sources "" [chunkA0, chunkA1] ≠
        extractSourcesSpec [chunkA0, chunkA1] :=
  ⟨by decide, by decide, by decide⟩

/-- C3 (amended): the sources list contains no duplicates and consists of
the per-chunk labels `filename (type)` — suffixed with ` - Section i+1` when
the chunk metadata has a `chunk_index` — each appearing at most once; when no
chunk carries a `chunk_index` it coincides with the spec's deduplicated
plain labels, as the main.py inline extraction always does. -/
theorem C3_amended (ctx : String) (chunks : List Chunk) :
    (extract_sources ctx chunks).Nodup
    ∧ (∀ s, s ∈ extract_sources ctx chunks ↔
        ∃ c ∈ chunks, s = sourceLabel c.metadata)
    ∧ ((∀ c ∈ chunks, c.metadata.chunk_index = none) →
        extract_sources ctx chunks = extractSourcesSpec chunks)
    ∧ extractSourcesMain chunks = extractSourcesSpec chunks := by
  refine ⟨?_, ?_, ?_, rfl⟩
  · rw [extract_sources_eq]
    exact firstDedup_nodup _ [] List.nodup_nil
  · intro s
    rw [extract_sources_eq, firstDedup_mem]
    simp only [List.not_mem_nil, false_or, List.mem_map]
    constructor
    · rintro ⟨c, hc, rfl⟩
      exact ⟨c, hc, rfl⟩
    · rintro ⟨c, hc, rfl⟩
      exact ⟨c, hc, rfl⟩
  · intro hnone
    rw [extract_sources_eq, extractSourcesSpec_eq]
    congr 1
    exact List.map_congr_left (fun c hc => sourceLabel_of_none _ (hnone c hc))

/-- C3 witness: on a chunk without `chunk_index` the extracted sources equal
the spec's deduplicated plain labels. -/
theorem C3_amended_witness :
    extract_sources "" [chunkPlain] = extractSourcesSpec [chunkPlain] :=
  (C3_amended "" [chunkPlain]).2.2.1 (by decide)

/-- C2 counterexample: a 3-item batch with one unsupported item produces a
response payload identical to that of the 2-item batch without it — the
payload enumerates no per-item failures (no count, no per-file note),
contrary to the claim. -/
theorem C2_counterexample :
    handle_ingestion_request batch3 = handle_ingestion_request batch2
    ∧ (batch3.filter (fun i => ! itemParses i)).length = 1
    ∧ (batch2.filter (fun i => ! itemParses i)).length = 0
    ∧ (handle_ingestion_request batch3).success = true
    ∧ (handle_ingestion_request batch3).processed_files =
        ["up/a.txt", "up/b.txt"] := by
  refine ⟨by decide, by decide, by decide, by decide, by decide⟩

/-- C2 (amended): a batch with at least one parsed item and at least one
failing item yields success = true, `processed_files` exactly the parsed
files in order, and no failure information: `error_message` is unset and the
whole response equals that of the batch restricted to its parsing items
(failures are only logged). -/
theorem C2_amended (items : List FileItem)
    (h1 : ∃ i ∈ items, itemParses i = true)
    (h2 : ∃ i ∈ items, itemParses i = false) :
    (handle_ingestion_request items).success = true
    ∧ (handle_ingestion_request items).processed_files =
        (items.filter itemParses).map (fun i => i.path)
    ∧ (handle_ingestion_request items).error_message = none
    ∧ handle_ingestion_request items =
        handle_ingestion_request (items.filter itemParses) := by
  obtain ⟨i, hi, hp⟩ := h1
  have hmem : i ∈ items.filter itemParses := List.mem_filter.mpr ⟨hi, hp⟩
  have hpos : 0 < (items.filter itemParses).length :=
    List.length_pos.mpr (List.ne_nil_of_mem hmem)
  have hff : (items.filter itemParses).filter itemParses =
      items.filter itemParses := by
    rw [List.filter_filter]
    simp [Bool.and_self]
  refine ⟨?_, ?_, rfl, ?_⟩
  · simp [handle_ingestion_request, processedDocs_eq, hpos]
  · simp [handle_ingestion_request, processedDocs_eq, List.map_map]
  · simp only [handle_ingestion_request, processedDocs_eq, hff]

/-- C2 witness: the amended behaviour on the concrete 3-item batch. -/
theorem C2_amended_witness :
    (handle_ingestion_request batch3).success = true
    ∧ handle_ingestion_request batch3 =
        handle_ingestion_request (batch3.filter itemParses) := by
  have h := C2_amended batch3 (by decide) (by decide)
  exact ⟨h.1, h.2.2.2⟩

/-- C10: the ingestion response's success flag is true iff at least one item
of the batch parses; when every item fails (missing file, unsupported type,
parser error) — or the batch is empty — the response is success = false with
`error_message` unset and no other failure record. -/
theorem C10_success_iff (items : List FileItem) :
    ((handle_ingestion_request items).success = true ↔
      ∃ i ∈ items, itemParses i = true)
    ∧ ((∀ i ∈ items, itemParses i = false) →
        handle_ingestion_request items =
          ⟨false, [], 0, none, []⟩) := by
  constructor
  · simp only [handle_ingestion_request, processedDocs_eq, List.length_map,
      decide_eq_true_eq]
    rw [List.length_pos, Ne, List.filter_eq_nil_iff]
    push_neg
    simp
  · intro hall
    have hnil : items.filter itemParses = [] :=
      List.filter_eq_nil_iff.mpr (fun a ha => by simp [hall a ha])
    simp [handle_ingestion_request, processedDocs_eq, hnil]

/-- C10 witness: an all-failing batch (missing file, unsupported type,
parser error) yields the bare failure response; the mixed batch succeeds. -/
theorem C10_witness :
    handle_ingestion_request batchAllFail =
      (⟨false, [], 0, none, []⟩ : IngestionResponsePayload)
    ∧ (handle_ingestion_request batch3).success = true := by
  exact ⟨(C10_success_iff batchAllFail).2 (by decide),
    (C10_success_iff batch3).1.mpr (by decide)⟩

/-- C1 counterexample: in `CoordinatorAgent.answer_question`, a retrieval
reply with an empty `retrieved_chunks` list does not short-circuit — an
LLM_REQUEST is still issued, and the answer is whatever the model returns,
not the fixed insufficient-information answer. -/
theorem C1_counterexample :
    ((answer_question (BusReply.msg emptyRetrievalResp) (BusReply.msg llmResp)
          [] "q").issued.map Prod.fst) =
      [MessageType.RETRIEVAL_REQUEST, MessageType.LLM_REQUEST]
    ∧ (answer_question (BusReply.msg emptyRetrievalResp) (BusReply.msg llmResp)
          [] "q").result.answer = some "model answer"
    ∧ "model answer" ≠ insufficientAnswer :=
  ⟨rfl, rfl, by decide⟩

/-- C1 (amended): the empty-index short-circuit exists only in the direct
pipeline — `ask_question` on an empty result list returns success = true,
the fixed insufficient-information answer, empty sources, confidence 0, and
never calls generation; `CoordinatorAgent.answer_question` has no such
short-circuit and issues the LLM_REQUEST (with empty context) even when
retrieval returns no chunks. -/
theorem C1_amended (gen : String → Except String String) (hist : List Turn)
    (q : String) (hq : ¬ stripString q = "")
    (rresp : MCPMessage QPayload) (lr : BusReply QPayload)
    (hr1 : ¬ rresp.type = MessageType.ERROR)
    (hr2 : rresp.payload.retrieved_chunks = []) :
    ask_question [] gen hist q =
      (⟨true, some insufficientAnswer, [], some 0, none⟩, false, hist)
    ∧ (answer_question (BusReply.msg rresp) lr hist q).issued =
        [(MessageType.RETRIEVAL_REQUEST,
            { emptyQPayload with query := some q, top_k := some 5 }),
          (MessageType.LLM_REQUEST,
            { emptyQPayload with
                query := some q
                context := some ""
                conversation_history := hist })] := by
  have hint : String.intercalate "\n\n" ([] : List String) = "" := rfl
  refine ⟨?_, ?_⟩
  · simp [ask_question, hq]
  · cases lr with
    | timeout => simp [answer_question, hr1, hr2, hint, emptyQPayload]
    | msg m =>
        by_cases hm : m.type = MessageType.ERROR
        · simp [answer_question, hr1, hr2, hm, hint, emptyQPayload]
        · cases ha : m.payload.answer with
          | none => simp [answer_question, hr1, hr2, hm, ha, hint, emptyQPayload]
          | some ans => simp [answer_question, hr1, hr2, hm, ha, hint, emptyQPayload]

/-- C1 witness: the amended behaviour at concrete inputs. -/
theorem C1_amended_witness :
    ask_question [] (fun _ => Except.ok "x") [] "q" =
      (⟨true, some insufficientAnswer, [], some 0, none⟩, false, []) ∧
    (answer_question (BusReply.msg emptyRetrievalResp)
        (BusReply.msg llmResp) [] "q").issued =
      [(MessageType.RETRIEVAL_REQUEST,
          { emptyQPayload with query := some "q", top_k := some 5 }),
        (MessageType.LLM_REQUEST,
          { emptyQPayload with
              query := some "q"
              context := some ""
              conversation_history := [] })] := by
  have h := C1_amended (fun _ => Except.ok "x") [] "q" (by decide)
    emptyRetrievalResp (BusReply.msg llmResp) (by decide) (by decide)
  exact ⟨h.1, h.2⟩

end RAGCore
